import Mathlib

/-!
Shallow embedding of the query-execution core of the sqlterm repository
(src/sqlterm/sql), together with theorems settling the frozen claims about
its specification.

Modelling conventions:
* Python exceptions become an explicit result type (Except PyExc).
* Cell values are modelled as strings; a row is a list of cells.  A native
  driver cursor is modelled by the data the driver would hand back (column
  descriptions and buffered rows), and fetch positions are explicit.
* Calls into collaborators (prompt display, commits, closes, rollbacks) are
  recorded as effect lists, in program order; the effects of a call happen
  before its result is delivered to the caller.
* Each manager definition is translated from the correspondingly named class
  in src/sqlterm/sql/backends/sa/queries/managers.
-/

set_option autoImplicit false

namespace Sqlterm

/-- A single cell of a result row.  The concrete value type is irrelevant to
the embedded control flow; strings keep everything executable. -/
abbrev Cell := String

/-- A result row, the embedding of the tuple returned by fetchone. -/
abbrev Row := List Cell

/-- The exceptions of the embedded code: the sqlterm exception taxonomy from
src/sqlterm/sql/exceptions plus the builtin Python exceptions that the
embedded fragments can raise. -/
inductive PyExc where
  | recordSetEnd
  | returnsNoRecords
  | sqlQueryException (msg : String)
  | typeError (msg : String)
  | attributeError (msg : String)
  | indexError
  | invalidUrlException (msg : String)
  | missingModuleException (msg : String)
  | connectionFailedException (msg : String)
  | connectionExistsException (msg : String)
  | keyboardInterrupt
  | otherException (msg : String)
  deriving DecidableEq, Repr

/-- RecordSet (src/sqlterm/sql/generic/recordset.py): a dataclass pairing the
column names with the buffered row tuples. -/
structure RecordSet where
  columns : List String
  records : List Row
  deriving DecidableEq, Repr

/-- One entry of a DBAPI cursor description.  The source only ever reads
component 0 of each description tuple (the column name); the remaining
components never influence the embedded code, so only the name is kept. -/
structure ColumnSpec where
  name : String
  deriving DecidableEq, Repr

/-- Side effects performed by manager methods on the native connection or on
collaborators, recorded in program order. -/
inductive Effect where
  | executeSql (sql : String)
  | rollback
  | commitDbapi
  | commitConnection
  | closeCursor
  | printNotices
  | enableDbmsOutput
  | displayDbmsOutput
  deriving DecidableEq, Repr

/-! ## DefaultManager
Translated from src/sqlterm/sql/backends/sa/queries/managers/defaultmanager.py. -/

/-- The data behind a SQLAlchemy CursorResult as DefaultManager reads it:
whether the statement returns rows, the keys() column names, and the rows the
driver will deliver. -/
structure SaCursorResult where
  returns_rows : Bool
  keys : List String
  rows : List Row
  deriving DecidableEq, Repr

/-- The state of a DefaultManager instance.  attrNames models the keys of the
Python instance dictionary: inside the class body an assignment to
self.__cursor stores the attribute under the name-mangled key
_DefaultManager__cursor. -/
structure DefaultManagerState where
  cursor : SaCursorResult
  pos : Nat
  columnsOpt : Option (List String)
  returned_records : Bool
  attrNames : List String
  deriving DecidableEq, Repr

namespace DefaultManager

/-- DefaultManager.__init__: executes the query immediately; on
StatementError (carrying the argument strings of the native error) it rolls
back the connection and then raises SqlQueryException with the newline-joined
arguments; on success it stores the column names when the cursor returns
rows. -/
def init (execResult : Except (List String) SaCursorResult) (sql : String) :
    Except PyExc DefaultManagerState × List Effect :=
  match execResult with
  | .error args =>
      (.error (.sqlQueryException (String.intercalate "\n" args)),
       [.executeSql sql, .rollback])
  | .ok cur =>
      (.ok { cursor := cur
             pos := 0
             columnsOpt := if cur.returns_rows then some cur.keys else none
             returned_records := false
             attrNames :=
               ["_DefaultManager__cursor", "_DefaultManager__columns",
                "_DefaultManager__returned_records"] },
       [.executeSql sql])

/-- DefaultManager.columns: the stored column list, or an empty list when the
cursor returns no rows. -/
def columns (s : DefaultManagerState) : List String :=
  s.columnsOpt.getD []

/-- DefaultManager.has_another_record_set: true until fetch_row has been
called at least once. -/
def has_another_record_set (s : DefaultManagerState) : Bool :=
  !s.returned_records

/-- DefaultManager.fetch_row: marks that records were requested, raises
ReturnsNoRecords when the cursor returns no rows, raises RecordSetEnd when
fetchone yields nothing, and otherwise delivers the next row. -/
def fetch_row (s : DefaultManagerState) :
    DefaultManagerState × Except PyExc Row :=
  let s1 := { s with returned_records := true }
  if s1.cursor.returns_rows = false then
    (s1, .error .returnsNoRecords)
  else
    match s1.cursor.rows.get? s1.pos with
    | none => (s1, .error .recordSetEnd)
    | some r => ({ s1 with pos := s1.pos + 1 }, .ok r)

/-- DefaultManager.__exit__: the source guards the close with
hasattr(self, "__cursor").  hasattr receives the literal string "__cursor",
while the attribute itself is stored under the mangled key
_DefaultManager__cursor, so the membership test is performed against the
unmangled name. -/
def exitEffects (s : DefaultManagerState) : List Effect :=
  if "__cursor" ∈ s.attrNames then [.closeCursor] else []

end DefaultManager

/-! ## SqliteManager
Translated from src/sqlterm/sql/backends/sa/queries/managers/sqlitemanager.py. -/

/-- The data behind a sqlite3 cursor after executing one statement: the
description (none when the statement returns no records) and the rows the
driver will deliver. -/
structure SqliteCursorResult where
  description : Option (List ColumnSpec)
  rows : List Row
  deriving DecidableEq, Repr

/-- A sqlite3.OperationalError: error name, argument strings, error code. -/
structure SqliteError where
  sqlite_errorname : String
  args : List String
  sqlite_errorcode : Int
  deriving DecidableEq, Repr

/-- The message built by SqliteManager._init_cursor for a raised
SqlQueryException. -/
def sqliteErrorMessage (e : SqliteError) : String :=
  "[" ++ e.sqlite_errorname ++ "] " ++ String.intercalate "\n" e.args
    ++ " (" ++ toString e.sqlite_errorcode ++ ")"

/-- The responses of the sqlite driver, indexed by statement number: the
outcome of executing the i-th split statement. -/
abbrev SqliteDb := Nat → Except SqliteError SqliteCursorResult

/-- The state of a SqliteManager instance.  cursorOpt pairs the active cursor
data with the fetch position; none models a null cursor. -/
structure SqliteManagerState where
  cursorOpt : Option (SqliteCursorResult × Nat)
  columnsOpt : Option (List String)
  current_statement : Nat
  statements : List String
  sqlite_error : Bool
  deriving DecidableEq, Repr

namespace SqliteManager

/-- SqliteManager.__init__: splits the query text into statements (sqlparse
is an external library, so the splitter is a parameter) and performs no
execution; the cursor stays null and no effect is produced. -/
def init (split : String → List String) (text : String) :
    SqliteManagerState × List Effect :=
  ({ cursorOpt := none
     columnsOpt := none
     current_statement := 0
     statements := split text
     sqlite_error := false }, [])

/-- SqliteManager.columns. -/
def columns (s : SqliteManagerState) : List String :=
  s.columnsOpt.getD []

/-- SqliteManager.has_another_record_set: true while no sqlite error has
occurred and statements remain. -/
def has_another_record_set (s : SqliteManagerState) : Bool :=
  !s.sqlite_error && decide (s.current_statement < s.statements.length)

/-- SqliteManager._init_cursor: executes the current statement.  On
OperationalError the error flag is set and SqlQueryException is raised with
the statement counter unchanged (the cursor assignment is a single chained
expression, so the null cursor is untouched).  Otherwise the counter
advances; a null description closes the cursor and raises ReturnsNoRecords,
and a real description stores the column names.  Indexing past the statement
list raises IndexError, exactly as the subscript in the source would. -/
def init_cursor (db : SqliteDb) (s : SqliteManagerState) :
    SqliteManagerState × Except PyExc Unit × List Effect :=
  match s.statements.get? s.current_statement with
  | none => (s, .error .indexError, [])
  | some stmt =>
    match db s.current_statement with
    | .error e =>
        ({ s with sqlite_error := true },
         .error (.sqlQueryException (sqliteErrorMessage e)),
         [.executeSql stmt])
    | .ok cur =>
      let s1 := { s with current_statement := s.current_statement + 1 }
      match cur.description with
      | none =>
          ({ s1 with cursorOpt := none }, .error .returnsNoRecords,
           [.executeSql stmt, .closeCursor])
      | some desc =>
          ({ s1 with
             cursorOpt := some (cur, 0)
             columnsOpt := some (desc.map ColumnSpec.name) },
           .ok (), [.executeSql stmt])

/-- The fetchone step shared by the two entry paths of fetch_row: a null
result closes the cursor and raises RecordSetEnd. -/
def fetch_from_cursor (s : SqliteManagerState) (evs : List Effect) :
    SqliteManagerState × Except PyExc Row × List Effect :=
  match s.cursorOpt with
  | none => (s, .error (.attributeError "NoneType has no attribute fetchone"), evs)
  | some (cur, pos) =>
    match cur.rows.get? pos with
    | none =>
        ({ s with cursorOpt := none }, .error .recordSetEnd,
         evs ++ [.closeCursor])
    | some r => ({ s with cursorOpt := some (cur, pos + 1) }, .ok r, evs)

/-- SqliteManager.fetch_row: lazily initializes the cursor on first use, then
fetches one row. -/
def fetch_row (db : SqliteDb) (s : SqliteManagerState) :
    SqliteManagerState × Except PyExc Row × List Effect :=
  match s.cursorOpt with
  | none =>
    let (s1, r, evs) := init_cursor db s
    match r with
    | .error e => (s1, .error e, evs)
    | .ok () => fetch_from_cursor s1 evs
  | some _ => fetch_from_cursor s []

/-- SqliteManager.__exit__: closes the cursor when one is active, then
commits on the raw DBAPI connection and on the SQLAlchemy connection. -/
def exitEffects (s : SqliteManagerState) : List Effect :=
  (if s.cursorOpt.isSome then [Effect.closeCursor] else [])
    ++ [.commitDbapi, .commitConnection]

end SqliteManager

/-! ## PostgresManager
Translated from src/sqlterm/sql/backends/sa/queries/managers/postgresmanager.py.
The structure mirrors SqliteManager: the text is split client side and one
statement is executed per record set. -/

/-- A psycopg2 error; _init_cursor raises SqlQueryException with args[0]. -/
structure PostgresError where
  arg0 : String
  deriving DecidableEq, Repr

/-- The responses of the postgres driver, indexed by statement number. -/
abbrev PostgresDb := Nat → Except PostgresError SqliteCursorResult

/-- A native psycopg2 cursor as the manager holds it.  In the source the
cursor object is allocated first and execute is a second call, so after a
failed execute the attribute still holds a real (but unexecuted) cursor. -/
inductive PgCursor where
  | executed (cur : SqliteCursorResult) (pos : Nat)
  | failed
  deriving DecidableEq, Repr

/-- The state of a PostgresManager instance. -/
structure PostgresManagerState where
  cursorOpt : Option PgCursor
  columnsOpt : Option (List String)
  current_statement : Nat
  statements : List String
  postgres_error : Bool
  deriving DecidableEq, Repr

namespace PostgresManager

/-- PostgresManager.__init__: splits the text and performs no execution. -/
def init (split : String → List String) (text : String) :
    PostgresManagerState × List Effect :=
  ({ cursorOpt := none
     columnsOpt := none
     current_statement := 0
     statements := split text
     postgres_error := false }, [])

/-- PostgresManager.columns. -/
def columns (s : PostgresManagerState) : List String :=
  s.columnsOpt.getD []

/-- PostgresManager.has_another_record_set. -/
def has_another_record_set (s : PostgresManagerState) : Bool :=
  !s.postgres_error && decide (s.current_statement < s.statements.length)

/-- PostgresManager._init_cursor: allocates a cursor, executes the current
statement (on psycopg2 error the error flag is set, the allocated cursor is
kept, and SqlQueryException carries args[0]), advances the counter, prints
the accumulated notices, and then either closes the cursor and raises
ReturnsNoRecords (null description) or stores the column names. -/
def init_cursor (db : PostgresDb) (s : PostgresManagerState) :
    PostgresManagerState × Except PyExc Unit × List Effect :=
  match s.statements.get? s.current_statement with
  | none => (s, .error .indexError, [])
  | some stmt =>
    match db s.current_statement with
    | .error e =>
        ({ s with cursorOpt := some .failed, postgres_error := true },
         .error (.sqlQueryException e.arg0),
         [.executeSql stmt])
    | .ok cur =>
      let s1 := { s with current_statement := s.current_statement + 1 }
      match cur.description with
      | none =>
          ({ s1 with cursorOpt := none, columnsOpt := none },
           .error .returnsNoRecords,
           [.executeSql stmt, .printNotices, .closeCursor])
      | some desc =>
          ({ s1 with
             cursorOpt := some (.executed cur 0)
             columnsOpt := some (desc.map ColumnSpec.name) },
           .ok (), [.executeSql stmt, .printNotices])

/-- The fetchone step of PostgresManager.fetch_row. -/
def fetch_from_cursor (s : PostgresManagerState) (evs : List Effect) :
    PostgresManagerState × Except PyExc Row × List Effect :=
  match s.cursorOpt with
  | none => (s, .error (.attributeError "NoneType has no attribute fetchone"), evs)
  | some .failed =>
      (s, .error (.otherException "fetch on a cursor whose execute failed"), evs)
  | some (.executed cur pos) =>
    match cur.rows.get? pos with
    | none =>
        ({ s with cursorOpt := none }, .error .recordSetEnd,
         evs ++ [.closeCursor])
    | some r => ({ s with cursorOpt := some (.executed cur (pos + 1)) }, .ok r, evs)

/-- PostgresManager.fetch_row: lazily initializes the cursor on first use,
then fetches one row. -/
def fetch_row (db : PostgresDb) (s : PostgresManagerState) :
    PostgresManagerState × Except PyExc Row × List Effect :=
  match s.cursorOpt with
  | none =>
    let (s1, r, evs) := init_cursor db s
    match r with
    | .error e => (s1, .error e, evs)
    | .ok () => fetch_from_cursor s1 evs
  | some _ => fetch_from_cursor s []

/-- PostgresManager.__exit__: closes any active cursor, then commits on the
DBAPI connection and the SQLAlchemy connection. -/
def exitEffects (s : PostgresManagerState) : List Effect :=
  (if s.cursorOpt.isSome then [Effect.closeCursor] else [])
    ++ [.commitDbapi, .commitConnection]

end PostgresManager

/-! ## MsSqlManager
Translated from src/sqlterm/sql/backends/sa/queries/managers/mssqlmanager.py. -/

/-- One native result set as a pyodbc cursor exposes it: the description is
null when the set returns no records. -/
structure NativeSet where
  description : Option (List ColumnSpec)
  rows : List Row
  deriving DecidableEq, Repr

/-- A pyodbc cursor after execute: the set it is positioned on, the sets a
nextset call can still reach, the fetch position within the current set, and
the out-of-band server messages not yet drained. -/
structure PyodbcCursor where
  current : NativeSet
  pending : List NativeSet
  pos : Nat
  messages : List String
  deriving DecidableEq, Repr

/-- A pyodbc error as _message_for_pyodbc_error reads it: args[0] is the
SQLSTATE and args[1] the driver message text. -/
structure PyodbcError where
  arg0 : String
  arg1 : String
  deriving DecidableEq, Repr

/-- Everything of the string after its first space character (the Python
slice msg[msg.index(" "):] before stripping).  When no space occurs the
Python index call raises ValueError; that case is returned as none. -/
def afterFirstSpace (msg : String) : Option String :=
  match msg.splitOn " " with
  | [] => none
  | [_] => none
  | _ :: rest => some (" " ++ String.intercalate " " rest)

/-- One round of MsSqlManager._remove_message_prefix: when a closing bracket
occurs, drop everything up to and including the first one. -/
def removeBracketHead (msg : String) : String :=
  match msg.splitOn "]" with
  | [] => msg
  | [_] => msg
  | _ :: rest => String.intercalate "]" rest

/-- MsSqlManager._remove_message_prefix: up to three rounds of bracket-prefix
removal, stopping early when no bracket remains. -/
def remove_message_prefixes (msg : String) : String :=
  removeBracketHead (removeBracketHead (removeBracketHead msg))

/-- The Python slice msg[: msg.rfind("(")]: cut at the last opening
parenthesis; when none occurs rfind yields -1 and the slice drops the final
character. -/
def cutAtLastParen (msg : String) : String :=
  match (msg.splitOn "(").dropLast with
  | [] => msg.dropRight 1
  | parts => String.intercalate "(" parts

/-- MsSqlManager._message_for_pyodbc_error: strips the driver-detail prefix
from args[1], removes up to three bracketed prefixes, cuts the trailing
function-name parenthetical, and prepends the bracketed SQLSTATE.  A message
without a space makes the index call raise ValueError; that branch is
surfaced as an otherException marker. -/
def message_for_pyodbc_error (e : PyodbcError) : Except PyExc String :=
  match afterFirstSpace e.arg1 with
  | none => .error (.otherException "ValueError: substring not found")
  | some tail =>
      .ok ("[" ++ e.arg0 ++ "] "
        ++ (cutAtLastParen (remove_message_prefixes tail.trim)).trim)

/-- The state of an MsSqlManager instance. -/
structure MsSqlManagerState where
  cursor : PyodbcCursor
  columnsOpt : Option (List String)
  rows_fetched : Bool
  mssql_error : Bool
  deriving DecidableEq, Repr

namespace MsSqlManager

/-- MsSqlManager.__init__ and _init_cursor: executes the query text at once;
a pyodbc error becomes a SqlQueryException built by
_message_for_pyodbc_error. -/
def init (execResult : Except PyodbcError PyodbcCursor) (sql : String) :
    Except PyExc MsSqlManagerState × List Effect :=
  match execResult with
  | .error e =>
      (match message_for_pyodbc_error e with
       | .error inner => .error inner
       | .ok msg => .error (.sqlQueryException msg),
       [.executeSql sql])
  | .ok cur =>
      (.ok { cursor := cur
             columnsOpt := none
             rows_fetched := false
             mssql_error := false },
       [.executeSql sql])

/-- MsSqlManager.columns. -/
def columns (s : MsSqlManagerState) : List String :=
  s.columnsOpt.getD []

/-- MsSqlManager.fetch_row: records that rows were requested; a null
description raises RecordSetEnd, an exhausted set raises RecordSetEnd, and
otherwise one row is delivered. -/
def fetch_row (s : MsSqlManagerState) :
    MsSqlManagerState × Except PyExc Row :=
  let s1 := { s with rows_fetched := true }
  match s1.cursor.current.description with
  | none => (s1, .error .recordSetEnd)
  | some _ =>
    match s1.cursor.current.rows.get? s1.cursor.pos with
    | none => (s1, .error .recordSetEnd)
    | some r =>
        ({ s1 with cursor := { s1.cursor with pos := s1.cursor.pos + 1 } }, .ok r)

/-- The advancing loop inside MsSqlManager.has_another_record_set: each
nextset call repositions the cursor on the next pending set; a set with a
null description makes _next_record_set raise ReturnsNoRecords, which the
loop swallows before advancing again; a set with a description updates the
column names; an empty pending list makes nextset report falsy.  The
returned data is the final current set, the remaining pending sets, the
column names as updated, and the boolean result of _next_record_set. -/
def advance_from (currentSet : NativeSet) (pending : List NativeSet)
    (cols : Option (List String)) :
    NativeSet × List NativeSet × Option (List String) × Bool :=
  match pending with
  | [] => (currentSet, [], cols, false)
  | rs :: rest =>
    match rs.description with
    | none => advance_from rs rest cols
    | some desc => (rs, rest, some (desc.map ColumnSpec.name), true)

/-- MsSqlManager._try_populate_columns: copies the description of the current
set into columns, or resets columns to null. -/
def try_populate_columns (s : MsSqlManagerState) : MsSqlManagerState :=
  match s.cursor.current.description with
  | some desc => { s with columnsOpt := some (desc.map ColumnSpec.name) }
  | none => { s with columnsOpt := none }

/-- MsSqlManager.has_another_record_set: drains the pending server messages
(forwarded to the prompt collaborator; only the manager-local clearing is
tracked), then either advances through the pending sets (after any fetch_row
call) or populates the columns of the current set (before the first fetch),
and finally conjoins the error flag. -/
def has_another_record_set (s : MsSqlManagerState) :
    MsSqlManagerState × Bool :=
  let c0 := { s.cursor with messages := [] }
  if s.rows_fetched then
    match c0.pending with
    | [] => ({ s with cursor := c0 }, !s.mssql_error && false)
    | _ :: _ =>
      let (cur, pend, colsUpd, b) := advance_from c0.current c0.pending s.columnsOpt
      ({ s with
         cursor := { current := cur, pending := pend, pos := 0, messages := [] }
         columnsOpt := colsUpd },
       !s.mssql_error && b)
  else
    let s1 := try_populate_columns { s with cursor := c0 }
    (s1, !s1.mssql_error && true)

/-- MsSqlManager.__exit__: closes the cursor when it is non-null (in every
successfully constructed manager it is). -/
def exitEffects : List Effect := [.closeCursor]

end MsSqlManager

/-! ## MySqlManager
Translated from src/sqlterm/sql/backends/sa/queries/managers/mysqlmanager.py.
The control flow mirrors MsSqlManager without the server-message handling. -/

/-- A buffered mysql-connector cursor after execute. -/
structure CMySqlCursor where
  current : NativeSet
  pending : List NativeSet
  pos : Nat
  deriving DecidableEq, Repr

/-- A mysql.connector error; __init__ raises SqlQueryException with
args[1]. -/
structure MySqlError where
  arg0 : String
  arg1 : String
  deriving DecidableEq, Repr

/-- The state of a MySqlManager instance. -/
structure MySqlManagerState where
  cursor : CMySqlCursor
  columnsOpt : Option (List String)
  rows_fetched : Bool
  mysql_error : Bool
  deriving DecidableEq, Repr

namespace MySqlManager

/-- MySqlManager.__init__ and _init_cursor: executes immediately; a
mysql.connector error becomes SqlQueryException carrying args[1]. -/
def init (execResult : Except MySqlError CMySqlCursor) (sql : String) :
    Except PyExc MySqlManagerState × List Effect :=
  match execResult with
  | .error e => (.error (.sqlQueryException e.arg1), [.executeSql sql])
  | .ok cur =>
      (.ok { cursor := cur
             columnsOpt := none
             rows_fetched := false
             mysql_error := false },
       [.executeSql sql])

/-- MySqlManager.columns. -/
def columns (s : MySqlManagerState) : List String :=
  s.columnsOpt.getD []

/-- MySqlManager.fetch_row: identical control flow to MsSqlManager. -/
def fetch_row (s : MySqlManagerState) :
    MySqlManagerState × Except PyExc Row :=
  let s1 := { s with rows_fetched := true }
  match s1.cursor.current.description with
  | none => (s1, .error .recordSetEnd)
  | some _ =>
    match s1.cursor.current.rows.get? s1.cursor.pos with
    | none => (s1, .error .recordSetEnd)
    | some r =>
        ({ s1 with cursor := { s1.cursor with pos := s1.cursor.pos + 1 } }, .ok r)

/-- The advancing loop inside MySqlManager.has_another_record_set. -/
def advance_from (currentSet : NativeSet) (pending : List NativeSet)
    (cols : Option (List String)) :
    NativeSet × List NativeSet × Option (List String) × Bool :=
  match pending with
  | [] => (currentSet, [], cols, false)
  | rs :: rest =>
    match rs.description with
    | none => advance_from rs rest cols
    | some desc => (rs, rest, some (desc.map ColumnSpec.name), true)

/-- MySqlManager._try_populate_columns. -/
def try_populate_columns (s : MySqlManagerState) : MySqlManagerState :=
  match s.cursor.current.description with
  | some desc => { s with columnsOpt := some (desc.map ColumnSpec.name) }
  | none => { s with columnsOpt := none }

/-- MySqlManager.has_another_record_set. -/
def has_another_record_set (s : MySqlManagerState) :
    MySqlManagerState × Bool :=
  if s.rows_fetched then
    match s.cursor.pending with
    | [] => (s, !s.mysql_error && false)
    | _ :: _ =>
      let (cur, pend, colsUpd, b) := advance_from s.cursor.current s.cursor.pending s.columnsOpt
      ({ s with
         cursor := { current := cur, pending := pend, pos := 0 }
         columnsOpt := colsUpd },
       !s.mysql_error && b)
  else
    let s1 := try_populate_columns s
    (s1, !s1.mysql_error && true)

/-- MySqlManager.__exit__. -/
def exitEffects : List Effect := [.closeCursor]

end MySqlManager

/-! ## OracleManager
Translated from src/sqlterm/sql/backends/sa/queries/managers/oraclemanager.py. -/

/-- An oracledb cursor after execute. -/
structure OracleCursorResult where
  description : Option (List ColumnSpec)
  rows : List Row
  deriving DecidableEq, Repr

/-- An oracledb error; __init__ raises SqlQueryException with the
colon-joined argument strings. -/
structure OracleError where
  args : List String
  deriving DecidableEq, Repr

/-- The state of an OracleManager instance. -/
structure OracleManagerState where
  columnsOpt : Option (List String)
  cursorOpt : Option (OracleCursorResult × Nat)
  query_text : String
  returned_records : Bool
  deriving DecidableEq, Repr

namespace OracleManager

/-- OracleManager.__init__ and _init_cursor: enables the dbms output buffer,
allocates a cursor and executes the query text at once; an oracledb error
becomes SqlQueryException with the colon-joined arguments; a null description
leaves the columns null (the cursor stays open), and a real description
stores the column names. -/
def init (execResult : Except OracleError OracleCursorResult) (text : String) :
    Except PyExc OracleManagerState × List Effect :=
  match execResult with
  | .error e =>
      (.error (.sqlQueryException (String.intercalate ": " e.args)),
       [.enableDbmsOutput, .executeSql text])
  | .ok cur =>
      (.ok { columnsOpt :=
               match cur.description with
               | none => none
               | some desc => some (desc.map ColumnSpec.name)
             cursorOpt := some (cur, 0)
             query_text := text
             returned_records := false },
       [.enableDbmsOutput, .executeSql text])

/-- OracleManager.columns. -/
def columns (s : OracleManagerState) : List String :=
  s.columnsOpt.getD []

/-- OracleManager.has_another_record_set: displays the dbms output buffer and
reports true until records were requested. -/
def has_another_record_set (s : OracleManagerState) :
    Bool × List Effect :=
  (!s.returned_records, [.displayDbmsOutput])

/-- OracleManager.fetch_row: on the first call, marks that records were
requested and raises ReturnsNoRecords when the columns are null; afterwards
one row is fetched, and an exhausted cursor displays the dbms output, closes
the cursor, and raises RecordSetEnd. -/
def fetch_row (s : OracleManagerState) :
    OracleManagerState × Except PyExc Row × List Effect :=
  let firstCall := s.returned_records = false
  let s1 := { s with returned_records := true }
  if firstCall ∧ s.columnsOpt = none then
    (s1, .error .returnsNoRecords, [])
  else
    match s1.cursorOpt with
    | none => (s1, .error (.attributeError "NoneType has no attribute fetchone"), [])
    | some (cur, pos) =>
      match cur.rows.get? pos with
      | none =>
          ({ s1 with cursorOpt := none }, .error .recordSetEnd,
           [.displayDbmsOutput, .closeCursor])
      | some r => ({ s1 with cursorOpt := some (cur, pos + 1) }, .ok r, [])

/-- OracleManager.__exit__: closes the cursor when it is non-null. -/
def exitEffects (s : OracleManagerState) : List Effect :=
  if s.cursorOpt.isSome then [.closeCursor] else []

end OracleManager

/-! ## Query and SaQuery
Translated from src/sqlterm/sql/abstract/query.py and
src/sqlterm/sql/backends/sa/saquery.py. -/

/-- A SQLAlchemy TextClause as SaQuery uses it: str() on it yields the SQL
text it was built from. -/
structure TextClause where
  clauseText : String
  deriving DecidableEq, Repr

/-- An SaQuery instance.  objectId models the Python object identity: neither
Query nor SaQuery defines an equality method, so the == operator falls back
to identity comparison of the two objects. -/
structure SaQuery where
  objectId : Nat
  sa_text : TextClause
  deriving DecidableEq, Repr

namespace SaQuery

/-- SaQuery.__init__: wraps the query string in a TextClause; the objectId is
the identity of the freshly allocated object. -/
def make (objectId : Nat) (query : String) : SaQuery :=
  { objectId := objectId, sa_text := { clauseText := query } }

/-- SaQuery.text: str(self.__sa_text), the SQL text of the clause. -/
def text (q : SaQuery) : String :=
  q.sa_text.clauseText

/-- The == operator on two query objects.  No __eq__ is defined anywhere in
the Query hierarchy, so Python compares object identity. -/
def pyEq (a b : SaQuery) : Bool :=
  a.objectId == b.objectId

/-- Query.__repr__: the class name around the text, with triple quotes. -/
def reprStr (q : SaQuery) : String :=
  "SaQuery(text=\x27\x27\x27" ++ q.text ++ "\x27\x27\x27)"

end SaQuery

/-! ## SaBackend
Translated from src/sqlterm/sql/backends/sa/sabackend.py.  Native handles
(engine, connection, inspector objects) are modelled as numeric handles;
collaborator calls are recorded as effects. -/

/-- SaDialect (src/sqlterm/sql/backends/sa/enums/sadialect.py). -/
inductive SaDialect where
  | mssql
  | mysql
  | oracle
  | postgres
  | sqlite
  deriving DecidableEq, Repr

/-- The SaDialect(value) enum lookup; an unknown value raises ValueError,
returned here as none. -/
def SaDialect.ofValue (value : String) : Option SaDialect :=
  if value = "mssql" then some .mssql
  else if value = "mysql" then some .mysql
  else if value = "oracle" then some .oracle
  else if value = "postgresql" then some .postgres
  else if value = "sqlite" then some .sqlite
  else none

/-- Collaborator calls made by the backend, recorded in program order. -/
inductive BackendEffect where
  | clearCompletions
  | closeConnection (handle : Nat)
  | disposeEngine (handle : Nat)
  | updatePromptDialect
  | displayConnectionString
  | startInspector (handle : Nat)
  | showDialectWarnings
  deriving DecidableEq, Repr

/-- The fields of an SaBackend instance; the class attributes default every
field to None. -/
structure SaBackendState where
  active_connection : Option Nat
  engine : Option Nat
  dialect : Option SaDialect
  inspector : Option Nat
  deriving DecidableEq, Repr

namespace SaBackend

/-- A freshly constructed backend: every private field is None. -/
def initState : SaBackendState :=
  { active_connection := none, engine := none, dialect := none,
    inspector := none }

/-- SaBackend.connected: whether the active connection is non-null. -/
def connected (s : SaBackendState) : Bool :=
  s.active_connection.isSome

/-- SaBackend.disconnect: clears the prompt completions, closes the
connection when one is open, disposes the engine when one exists, resets the
dialect and updates the prompt dialect.  Every step is total: the function
never raises. -/
def disconnect (s : SaBackendState) : SaBackendState × List BackendEffect :=
  let evConn :=
    match s.active_connection with
    | some c => [BackendEffect.closeConnection c]
    | none => []
  let evEng :=
    match s.engine with
    | some e => [BackendEffect.disposeEngine e]
    | none => []
  ({ s with active_connection := none, engine := none, dialect := none },
   [BackendEffect.clearCompletions] ++ evConn ++ evEng
     ++ [BackendEffect.updatePromptDialect])

/-- SaBackend._dialect_name_from_driver_string: the part of the driver name
before a plus sign, or the whole name when no plus sign occurs. -/
def dialect_name_from_driver_string (drivername : String) : String :=
  match drivername.splitOn "+" with
  | [] => drivername
  | [_] => drivername
  | part :: _ :: _ => part

/-- The URL data the backend reads after make_url. -/
structure UrlModel where
  drivername : String
  deriving DecidableEq, Repr

/-- The environment of one connect call: the outcome of make_url on the
resolved connection string, of create_engine (a ModuleNotFoundError message
or an engine handle), of engine.connect (SQLAlchemyError argument strings or
a connection handle), and the handle of the inspector that _init_inspector
would start.  Alias resolution and the interactive prompt belong to
collaborators and are outside the core. -/
structure ConnectWorld where
  make_url : Except String UrlModel
  create_engine : Except String Nat
  connect : Except (List String) Nat
  inspector_handle : Nat

/-- SaBackend._connect_with_string: raises ConnectionExistsException when an
engine already exists; displays and parses the connection string (an
SQLAlchemy parse error becomes InvalidUrlException); infers the dialect from
the driver name (an unknown name leaves it None); builds the engine (a
ModuleNotFoundError becomes MissingModuleException with the engine field
untouched); connects (an SQLAlchemyError triggers disconnect and then
ConnectionFailedException with the newline-joined arguments); and finally
starts an inspector and shows the dialect warnings. -/
def connect_with_string (w : ConnectWorld) (s : SaBackendState) :
    SaBackendState × Except PyExc Unit × List BackendEffect :=
  if s.engine.isSome then
    (s, .error (.connectionExistsException
        "A connection has already been established"), [])
  else
    match w.make_url with
    | .error msg =>
        (s, .error (.invalidUrlException msg),
         [BackendEffect.displayConnectionString])
    | .ok url =>
      let dialectOpt := SaDialect.ofValue
        (dialect_name_from_driver_string url.drivername)
      let s1 := { s with dialect := dialectOpt }
      let evs1 := [BackendEffect.displayConnectionString,
                   BackendEffect.updatePromptDialect]
      match w.create_engine with
      | .error msg => (s1, .error (.missingModuleException msg), evs1)
      | .ok engineHandle =>
        let s2 := { s1 with engine := some engineHandle }
        match w.connect with
        | .error args =>
          let (s3, evs2) := disconnect s2
          (s3, .error (.connectionFailedException
              (String.intercalate "\n" args)), evs1 ++ evs2)
        | .ok connHandle =>
          let s3 := { s2 with active_connection := some connHandle }
          let s4 := { s3 with inspector := some w.inspector_handle }
          (s4, .ok (),
           evs1 ++ [BackendEffect.startInspector w.inspector_handle,
                    BackendEffect.showDialectWarnings])

/-- SaBackend.invalidate_completions: a no-op without an engine; otherwise
_init_inspector installs and starts a fresh inspector. -/
def invalidate_completions (inspectorHandle : Nat) (s : SaBackendState) :
    SaBackendState × List BackendEffect :=
  if s.engine.isNone then (s, [])
  else ({ s with inspector := some inspectorHandle },
        [BackendEffect.startInspector inspectorHandle])

/-- SaBackend.inspecting: returns self.__inspector.is_alive().  When no
inspector was ever installed the field is None and the attribute access
raises AttributeError instead of returning a boolean. -/
def inspecting (isAlive : Nat → Bool) (s : SaBackendState) :
    Except PyExc Bool :=
  match s.inspector with
  | none => .error (.attributeError
      "NoneType object has no attribute is_alive")
  | some h => .ok (isAlive h)

end SaBackend

/-! ## Spool monitor and spooling protocol
Translated from src/sqlterm/sql/backends/sa/saspoolmonitor.py and
SaBackend._spool_results (sabackend.py).  The main thread of the protocol is
embedded as an event trace; the monitor thread is treated in the schedule
model further below. -/

/-- The observable steps of the spooling protocol.  Events prefixed monitor
describe the main-thread interaction with the monitor object (construction,
start, stop request, join); monitorOutput stands for a terminal write done by
the monitor thread itself. -/
inductive SpoolEvent where
  | monitorCreate
  | monitorStart
  | rowFetched (r : Row)
  | monitorDone
  | tableConstructed
  | monitorStop
  | monitorJoin
  | displayTable (table : String)
  | raised (e : PyExc)
  | monitorOutput (line : String)
  deriving DecidableEq, Repr

/-- The fields set by SaSpoolMonitor.__init__ once it is entered with all of
its three required arguments. -/
structure SaSpoolMonitorState where
  display_progress : Bool
  stopped : Bool
  done : Bool
  deriving DecidableEq, Repr

/-- SaSpoolMonitor.__init__(self, spool, parent, display_progress): the
signature declares three required parameters besides self; none of them has a
default value. -/
def sa_spool_monitor_init (spool : List Row) (parent : Unit)
    (display_progress : Bool) : SaSpoolMonitorState :=
  { display_progress := display_progress, stopped := false, done := false }

/-- The monitor construction performed by SaBackend._spool_results, line 342:
SaSpoolMonitor(spool=spool, parent=self).  The call supplies only spool and
parent, while sa_spool_monitor_init above requires display_progress as well,
so Python raises TypeError while binding the arguments and the initializer is
never entered. -/
def spool_monitor_call (spool : List Row) : Except PyExc SaSpoolMonitorState :=
  .error (.typeError
    "SaSpoolMonitor.__init__ missing 1 required positional argument: display_progress")

/-- The slice of the QueryManager interface that _spool_results consumes:
has_another_record_set and fetch_row may mutate the manager, columns reads
the active column list. -/
structure ManagerModel (σ : Type) where
  has_another_record_set : σ → σ × Bool
  fetch_row : σ → σ × Except PyExc Row
  columns : σ → List String

/-- Whether an exception is one of the two record-iteration control-flow
signals that the spooling loop treats as normal termination. -/
def PyExc.isResultControlFlow : PyExc → Bool
  | .recordSetEnd => true
  | .returnsNoRecords => true
  | _ => false

/-- The inner fetch loop of _spool_results:
while record := query_manager.fetch_row(): spool.append(record).
A raised exception ends the loop exceptionally; a falsy record (the empty
tuple) ends it normally without appending.  The fuel bounds the number of
iterations; exhausted fuel ends the loop normally. -/
def fetch_loop {σ : Type} (M : ManagerModel σ) (fuel : Nat) (s : σ)
    (spool : List Row) : σ × List Row × Option PyExc × List SpoolEvent :=
  match fuel with
  | 0 => (s, spool, none, [])
  | Nat.succ fuel =>
    let (s1, r) := M.fetch_row s
    match r with
    | .error e => (s1, spool, some e, [])
    | .ok row =>
      if row = [] then (s1, spool, none, [])
      else
        let (s2, sp2, exc2, evs2) := fetch_loop M fuel s1 (spool ++ [row])
        (s2, sp2, exc2, SpoolEvent.rowFetched row :: evs2)

/-- The outcome of one iteration of the spooling loop: the manager state, the
RecordSet appended to the result list (if any), the escaping exception (if
any), and the main-thread event trace of the iteration. -/
structure SpoolIterationResult (σ : Type) where
  state : σ
  recordSetOpt : Option RecordSet
  excOpt : Option PyExc
  events : List SpoolEvent

/-- The part of the loop body after the fetch loop ended normally: the done
flag is set, and when the column list is non-empty a RecordSet is appended
and rendered (a raised exception from the renderer stops and joins the
monitor before propagating); otherwise no table is produced.  The final
displayTable call happens after the monitor is stopped and joined. -/
def spool_iteration_tail {σ : Type}
    (constructTable : RecordSet → Except PyExc String) (M : ManagerModel σ)
    (s1 : σ) (spool : List Row) (evs0 : List SpoolEvent) :
    SpoolIterationResult σ :=
  let evs1 := evs0 ++ [SpoolEvent.monitorDone]
  if (M.columns s1).length ≠ 0 then
    let rs : RecordSet := { columns := M.columns s1, records := spool }
    match constructTable rs with
    | .error e =>
        { state := s1, recordSetOpt := some rs, excOpt := some e,
          events := evs1 ++ [.monitorStop, .monitorJoin, .raised e] }
    | .ok table =>
        { state := s1, recordSetOpt := some rs, excOpt := none,
          events := evs1 ++ [.tableConstructed, .monitorStop, .monitorJoin,
                             .displayTable table] }
  else
    { state := s1, recordSetOpt := none, excOpt := none,
      events := evs1 ++ [.monitorStop, .monitorJoin] }

/-- One iteration of the spooling loop of _spool_results, entered with the
monitor constructed and started: rows are fetched until an exception or a
falsy record; RecordSetEnd and ReturnsNoRecords are swallowed; any other
exception stops and joins the monitor and then propagates. -/
def spool_iteration {σ : Type} (M : ManagerModel σ)
    (constructTable : RecordSet → Except PyExc String)
    (fuel : Nat) (s : σ) : SpoolIterationResult σ :=
  let (s1, spool, fexc, fevs) := fetch_loop M fuel s []
  let evs0 := SpoolEvent.monitorStart :: fevs
  match fexc with
  | some e =>
    if e.isResultControlFlow then
      spool_iteration_tail constructTable M s1 spool evs0
    else
      { state := s1, recordSetOpt := none, excOpt := some e,
        events := evs0 ++ [.monitorStop, .monitorJoin, .raised e] }
  | none => spool_iteration_tail constructTable M s1 spool evs0

/-- The outcome of _spool_results: final manager state, accumulated record
sets, overall result, and the concatenated main-thread event trace. -/
structure SpoolRunResult (σ : Type) where
  state : σ
  record_sets : List RecordSet
  result : Except PyExc Unit
  events : List SpoolEvent

/-- SaBackend._spool_results: while the manager reports another record set,
construct a monitor (the call of line 342, which in this source raises
TypeError), run one iteration, and accumulate.  fuelSets bounds the number of
record sets and fuelRows the rows per set. -/
def spool_results {σ : Type} (M : ManagerModel σ)
    (constructTable : RecordSet → Except PyExc String)
    (fuelSets fuelRows : Nat) (s : σ) : SpoolRunResult σ :=
  match fuelSets with
  | 0 => { state := s, record_sets := [], result := .ok (), events := [] }
  | Nat.succ n =>
    let (s1, more) := M.has_another_record_set s
    if more then
      match spool_monitor_call [] with
      | .error e =>
          { state := s1, record_sets := [], result := .error e,
            events := [.monitorCreate, .raised e] }
      | .ok _ =>
        let it := spool_iteration M constructTable fuelRows s1
        match it.excOpt with
        | some e =>
            { state := it.state, record_sets := it.recordSetOpt.toList,
              result := .error e,
              events := SpoolEvent.monitorCreate :: it.events }
        | none =>
          let rest := spool_results M constructTable n fuelRows it.state
          { state := rest.state,
            record_sets := it.recordSetOpt.toList ++ rest.record_sets,
            result := rest.result,
            events := (SpoolEvent.monitorCreate :: it.events) ++ rest.events }
    else
      { state := s1, record_sets := [], result := .ok (), events := [] }

/-- The ManagerModel of a SqliteManager driven against a fixed driver
behavior (effects dropped; they do not influence the loop). -/
def sqliteModel (db : SqliteDb) : ManagerModel SqliteManagerState :=
  { has_another_record_set := fun s => (s, SqliteManager.has_another_record_set s)
    fetch_row := fun s =>
      let (s1, r, _) := SqliteManager.fetch_row db s
      (s1, r)
    columns := SqliteManager.columns }

/-! ## Schedule model for the monitor thread
The monitor runs concurrently with the fetch loop.  A full observable trace
interleaves the main-thread events with the monitor-thread events; the join
semantics of threads (Thread.join returns only once run() has returned, and
the final terminal writes of run() happen before it returns) is captured by
requiring every monitor event to land before the join event of the full
trace. -/

/-- Mix xs ys zs: zs is an interleaving of xs and ys that preserves the
relative order within each of the two. -/
inductive Mix {α : Type} : List α → List α → List α → Prop where
  | nil : Mix [] [] []
  | left {x : α} {xs ys zs : List α} : Mix xs ys zs → Mix (x :: xs) ys (x :: zs)
  | right {y : α} {xs ys zs : List α} : Mix xs ys zs → Mix xs (y :: ys) (y :: zs)

/-- A valid observable schedule of a main-thread trace together with the
events of the monitor thread: the main trace splits at its (first) join
event, all monitor events are interleaved strictly before that join, and the
main events after the join follow unchanged. -/
def ValidSchedule (main monitorEvents full : List SpoolEvent) : Prop :=
  ∃ pre post mixed,
    main = pre ++ SpoolEvent.monitorJoin :: post ∧
    SpoolEvent.monitorJoin ∉ pre ∧
    Mix pre monitorEvents mixed ∧
    full = mixed ++ SpoolEvent.monitorJoin :: post

/-! ## Concrete fixtures used by the claim theorems -/

/-- The cursor data of a successful SELECT 1 under the DefaultManager. -/
def defaultSelect1Cursor : SaCursorResult :=
  { returns_rows := true, keys := ["1"], rows := [["1"]] }

/-- The DefaultManager state produced by executing SELECT 1 successfully. -/
def defaultSelect1State : DefaultManagerState :=
  { cursor := defaultSelect1Cursor
    pos := 0
    columnsOpt := some ["1"]
    returned_records := false
    attrNames :=
      ["_DefaultManager__cursor", "_DefaultManager__columns",
       "_DefaultManager__returned_records"] }

/-- An MsSqlManager whose single result set reports no columns (for example
an UPDATE statement): description is null and no rows exist. -/
def mssqlNoColumnsState : MsSqlManagerState :=
  { cursor := { current := { description := none, rows := [] }
                pending := []
                pos := 0
                messages := [] }
    columnsOpt := none
    rows_fetched := false
    mssql_error := false }

/-- The same driver situation as mssqlNoColumnsState, used for the
record-set-advancement claim: one set, no columns, first call still to
come. -/
def mssqlSingleEmptySetState : MsSqlManagerState :=
  { cursor := { current := { description := none, rows := [] }
                pending := []
                pos := 0
                messages := [] }
    columnsOpt := none
    rows_fetched := false
    mssql_error := false }

/-- A trivial statement splitter: the whole text is one statement. -/
def wholeTextSplit : String → List String := fun text => [text]

/-! ## Claim theorems -/

/-- C4: the claim says every Query Manager closes its native cursor on scope
exit.  DefaultManager.__exit__ guards the close with hasattr(self,
"__cursor"); the attribute is stored under the name-mangled key
_DefaultManager__cursor, so the guard is always false and the cursor is never
closed.  Evaluated here at the state reached by successfully executing
SELECT 1: construction stores the mangled attribute name only, and scope exit
performs no close effect. -/
theorem claim_c4_default_exit_never_closes :
    (DefaultManager.init (.ok defaultSelect1Cursor) "SELECT 1").1
      = .ok defaultSelect1State ∧
    "_DefaultManager__cursor" ∈ defaultSelect1State.attrNames ∧
    "__cursor" ∉ defaultSelect1State.attrNames ∧
    DefaultManager.exitEffects defaultSelect1State = [] := by
  refine ⟨rfl, by decide, by decide, by decide⟩

/-- C6 counterexample: two SaQuery objects built from the same text SELECT 1
but distinct identities have equal text yet compare unequal, because no
equality method is defined and Python falls back to identity; this refutes
the claim that two Query objects constructed from the same text are equal. -/
theorem claim_c6_counterexample :
    SaQuery.text (SaQuery.make 0 "SELECT 1")
      = SaQuery.text (SaQuery.make 1 "SELECT 1") ∧
    SaQuery.pyEq (SaQuery.make 0 "SELECT 1") (SaQuery.make 1 "SELECT 1")
      = false := by
  exact ⟨rfl, by decide⟩

/-- C6 amended: equality of Query objects is Python object identity (text
equality does not make two distinct objects equal); repr is derived from the
text only (two queries have equal repr exactly when their texts are equal);
and the text is fixed at construction (no operation of the class mutates
it). -/
theorem claim_c6_amended :
    (∀ a b : SaQuery, SaQuery.pyEq a b = (a.objectId == b.objectId)) ∧
    (∀ q1 q2 : SaQuery,
        SaQuery.reprStr q1 = SaQuery.reprStr q2 ↔
          SaQuery.text q1 = SaQuery.text q2) ∧
    (∀ i t, SaQuery.text (SaQuery.make i t) = t) := by
  refine ⟨fun a b => rfl, fun q1 q2 => ⟨fun h => ?_, fun h => ?_⟩, fun i t => rfl⟩
  · have hdata := congrArg String.data h
    simp only [SaQuery.reprStr, String.data_append, List.append_assoc] at hdata
    have h2 := List.append_cancel_left hdata
    have h3 := List.append_cancel_right h2
    exact String.ext h3
  · simp only [SaQuery.reprStr, h]

/-- C6 witness: the amended theorem applied at a concrete query. -/
theorem claim_c6_witness :
    SaQuery.text (SaQuery.make 0 "SELECT 1") = "SELECT 1" :=
  claim_c6_amended.2.2 0 "SELECT 1"

/-- C7: disconnect is idempotent.  For every backend state, disconnect leaves
connected false, a second disconnect also leaves connected false, and the
second call does not change the state at all; the embedded disconnect is a
total function, so neither call raises. -/
theorem claim_c7_disconnect_idempotent (s : SaBackendState) :
    SaBackend.connected (SaBackend.disconnect s).1 = false ∧
    SaBackend.connected (SaBackend.disconnect (SaBackend.disconnect s).1).1
      = false ∧
    (SaBackend.disconnect (SaBackend.disconnect s).1).1
      = (SaBackend.disconnect s).1 := by
  refine ⟨rfl, rfl, rfl⟩

/-- C2 counterexample: on an MsSqlManager whose active result set has no
columns, fetch_row raises RecordSetEnd, not ReturnsNoRecords, refuting the
claim that every Query Manager fails with ReturnsNoRecords there. -/
theorem claim_c2_counterexample :
    (MsSqlManager.fetch_row mssqlNoColumnsState).2
      = Except.error PyExc.recordSetEnd ∧
    (MsSqlManager.fetch_row mssqlNoColumnsState).2
      ≠ Except.error PyExc.returnsNoRecords := by
  refine ⟨rfl, ?_⟩
  intro h
  simp [MsSqlManager.fetch_row, mssqlNoColumnsState] at h

/-- C2 amended: the Default, Sqlite, Postgres and Oracle managers fail with
ReturnsNoRecords when the active set has no columns and with RecordSetEnd
when its rows are exhausted; the MsSql and MySql managers instead fail with
RecordSetEnd in the no-columns case; in every manager a no-columns fetch_row
never returns a row. -/
theorem claim_c2_amended :
    (∀ s : DefaultManagerState, s.cursor.returns_rows = false →
        (DefaultManager.fetch_row s).2 = .error .returnsNoRecords) ∧
    (∀ s : DefaultManagerState, s.cursor.returns_rows = true →
        s.cursor.rows[s.pos]? = none →
        (DefaultManager.fetch_row s).2 = .error .recordSetEnd) ∧
    (∀ (db : SqliteDb) (s : SqliteManagerState) (stmt : String)
        (cur : SqliteCursorResult),
        s.cursorOpt = none →
        s.statements[s.current_statement]? = some stmt →
        db s.current_statement = .ok cur → cur.description = none →
        (SqliteManager.fetch_row db s).2.1 = .error .returnsNoRecords) ∧
    (∀ (db : SqliteDb) (s : SqliteManagerState) (cur : SqliteCursorResult)
        (pos : Nat),
        s.cursorOpt = some (cur, pos) → cur.rows[pos]? = none →
        (SqliteManager.fetch_row db s).2.1 = .error .recordSetEnd) ∧
    (∀ (db : PostgresDb) (s : PostgresManagerState) (stmt : String)
        (cur : SqliteCursorResult),
        s.cursorOpt = none →
        s.statements[s.current_statement]? = some stmt →
        db s.current_statement = .ok cur → cur.description = none →
        (PostgresManager.fetch_row db s).2.1 = .error .returnsNoRecords) ∧
    (∀ (db : PostgresDb) (s : PostgresManagerState)
        (cur : SqliteCursorResult) (pos : Nat),
        s.cursorOpt = some (.executed cur pos) → cur.rows[pos]? = none →
        (PostgresManager.fetch_row db s).2.1 = .error .recordSetEnd) ∧
    (∀ s : OracleManagerState, s.returned_records = false →
        s.columnsOpt = none →
        (OracleManager.fetch_row s).2.1 = .error .returnsNoRecords) ∧
    (∀ (s : OracleManagerState) (cur : OracleCursorResult) (pos : Nat),
        s.returned_records = true → s.cursorOpt = some (cur, pos) →
        cur.rows[pos]? = none →
        (OracleManager.fetch_row s).2.1 = .error .recordSetEnd) ∧
    (∀ s : MsSqlManagerState, s.cursor.current.description = none →
        (MsSqlManager.fetch_row s).2 = .error .recordSetEnd ∧
        ∀ r, (MsSqlManager.fetch_row s).2 ≠ .ok r) ∧
    (∀ s : MySqlManagerState, s.cursor.current.description = none →
        (MySqlManager.fetch_row s).2 = .error .recordSetEnd ∧
        ∀ r, (MySqlManager.fetch_row s).2 ≠ .ok r) := by
  refine ⟨?_, ?_, ?_, ?_, ?_, ?_, ?_, ?_, ?_, ?_⟩
  · intro s h
    simp [DefaultManager.fetch_row, h]
  · intro s h1 h2
    simp [DefaultManager.fetch_row, h1, h2]
  · intro db s stmt cur h1 h2 h3 h4
    simp [SqliteManager.fetch_row, SqliteManager.init_cursor, h1, h2, h3, h4]
  · intro db s cur pos h1 h2
    simp [SqliteManager.fetch_row, SqliteManager.fetch_from_cursor, h1, h2]
  · intro db s stmt cur h1 h2 h3 h4
    simp [PostgresManager.fetch_row, PostgresManager.init_cursor, h1, h2, h3, h4]
  · intro db s cur pos h1 h2
    simp [PostgresManager.fetch_row, PostgresManager.fetch_from_cursor, h1, h2]
  · intro s h1 h2
    simp [OracleManager.fetch_row, h1, h2]
  · intro s cur pos h1 h2 h3
    simp [OracleManager.fetch_row, h1, h2, h3]
  · intro s h
    constructor
    · simp [MsSqlManager.fetch_row, h]
    · intro r
      simp [MsSqlManager.fetch_row, h]
  · intro s h
    constructor
    · simp [MySqlManager.fetch_row, h]
    · intro r
      simp [MySqlManager.fetch_row, h]

/-- C2 witness: the amended theorem applied to a DefaultManager whose cursor
returns no rows. -/
theorem claim_c2_witness :
    (DefaultManager.fetch_row
      { cursor := { returns_rows := false, keys := [], rows := [] }
        pos := 0, columnsOpt := none, returned_records := false
        attrNames := [] }).2 = .error .returnsNoRecords :=
  claim_c2_amended.1 _ rfl

/-- C3 counterexample: the SqliteManager constructor is lazy.  Constructing
one for SELECT 1 performs no execution effect at all and leaves the cursor
null, refuting the claim that every Query Manager constructor begins
execution immediately. -/
theorem claim_c3_counterexample :
    (SqliteManager.init wholeTextSplit "SELECT 1").2 = [] ∧
    (SqliteManager.init wholeTextSplit "SELECT 1").1.cursorOpt = none ∧
    ∀ q, Effect.executeSql q ∉ (SqliteManager.init wholeTextSplit "SELECT 1").2 := by
  refine ⟨rfl, rfl, ?_⟩
  intro q
  simp [SqliteManager.init, wholeTextSplit]

/-- C3 amended: the Default, MsSql, MySql and Oracle managers begin execution
in the constructor, on the success path as well as on the failure path (their
constructor effect traces contain the execute step), and on native failure
raise SqlQueryException carrying a message built from the driver error; among
them only the DefaultManager rolls back before the exception propagates (its
effect trace is execute then rollback, both before the result is delivered).
The Sqlite and Postgres managers defer execution entirely: their constructors
only split the text, produce no effect and leave the cursor null with the
statement counter at zero; when the deferred execution at the first fetch_row
fails, they raise SqlQueryException with an effect trace of exactly the
execute step — in particular with no rollback. -/
theorem claim_c3_amended :
    (∀ (args : List String) (sql : String),
        DefaultManager.init (.error args) sql =
          (.error (.sqlQueryException (String.intercalate "\n" args)),
           [.executeSql sql, .rollback])) ∧
    (∀ (cur : SaCursorResult) (sql : String),
        (DefaultManager.init (.ok cur) sql).2 = [.executeSql sql]) ∧
    (∀ (e : PyodbcError) (sql : String),
        MsSqlManager.init (.error e) sql =
          (match message_for_pyodbc_error e with
           | .ok m => .error (.sqlQueryException m)
           | .error inner => .error inner,
           [.executeSql sql])) ∧
    (∀ (cur : PyodbcCursor) (sql : String),
        (MsSqlManager.init (.ok cur) sql).2 = [.executeSql sql]) ∧
    (∀ (e : MySqlError) (sql : String),
        MySqlManager.init (.error e) sql =
          (.error (.sqlQueryException e.arg1), [.executeSql sql])) ∧
    (∀ (cur : CMySqlCursor) (sql : String),
        (MySqlManager.init (.ok cur) sql).2 = [.executeSql sql]) ∧
    (∀ (e : OracleError) (text : String),
        OracleManager.init (.error e) text =
          (.error (.sqlQueryException (String.intercalate ": " e.args)),
           [.enableDbmsOutput, .executeSql text])) ∧
    (∀ (cur : OracleCursorResult) (text : String),
        (OracleManager.init (.ok cur) text).2
          = [.enableDbmsOutput, .executeSql text]) ∧
    (∀ (split : String → List String) (text : String),
        (SqliteManager.init split text).2 = [] ∧
        (SqliteManager.init split text).1.cursorOpt = none ∧
        (SqliteManager.init split text).1.current_statement = 0) ∧
    (∀ (db : SqliteDb) (s : SqliteManagerState) (stmt : String)
        (e : SqliteError),
        s.cursorOpt = none →
        s.statements[s.current_statement]? = some stmt →
        db s.current_statement = .error e →
        (SqliteManager.fetch_row db s).2.1
          = .error (.sqlQueryException (sqliteErrorMessage e)) ∧
        (SqliteManager.fetch_row db s).2.2 = [Effect.executeSql stmt] ∧
        Effect.rollback ∉ (SqliteManager.fetch_row db s).2.2) ∧
    (∀ (split : String → List String) (text : String),
        (PostgresManager.init split text).2 = [] ∧
        (PostgresManager.init split text).1.cursorOpt = none ∧
        (PostgresManager.init split text).1.current_statement = 0) ∧
    (∀ (db : PostgresDb) (s : PostgresManagerState) (stmt : String)
        (e : PostgresError),
        s.cursorOpt = none →
        s.statements[s.current_statement]? = some stmt →
        db s.current_statement = .error e →
        (PostgresManager.fetch_row db s).2.1
          = .error (.sqlQueryException e.arg0) ∧
        (PostgresManager.fetch_row db s).2.2 = [Effect.executeSql stmt] ∧
        Effect.rollback ∉ (PostgresManager.fetch_row db s).2.2) := by
  refine ⟨fun args sql => rfl, fun cur sql => rfl, fun e sql => ?_,
          fun cur sql => rfl, fun e sql => rfl, fun cur sql => rfl,
          fun e text => rfl, fun cur text => rfl,
          fun split text => ⟨rfl, rfl, rfl⟩, ?_,
          fun split text => ⟨rfl, rfl, rfl⟩, ?_⟩
  · cases h : message_for_pyodbc_error e <;> simp [MsSqlManager.init, h]
  · intro db s stmt e h1 h2 h3
    refine ⟨?_, ?_, ?_⟩ <;>
      simp [SqliteManager.fetch_row, SqliteManager.init_cursor, h1, h2, h3]
  · intro db s stmt e h1 h2 h3
    refine ⟨?_, ?_, ?_⟩ <;>
      simp [PostgresManager.fetch_row, PostgresManager.init_cursor, h1, h2, h3]

/-- A sqlite driver behavior on which every statement fails with a no such
table error. -/
def sqliteFailingDb : SqliteDb := fun _ =>
  .error { sqlite_errorname := "SQLITE_ERROR"
           args := ["no such table: t"]
           sqlite_errorcode := 1 }

/-- C3 witness: the amended theorem applied to a freshly constructed
SqliteManager for SELECT 1 whose deferred execution fails at the first
fetch_row: the failure surfaces as SqlQueryException and the effect trace is
the execute step alone, with no rollback. -/
theorem claim_c3_witness :
    (SqliteManager.fetch_row sqliteFailingDb
        (SqliteManager.init wholeTextSplit "SELECT 1").1).2.1
      = .error (.sqlQueryException (sqliteErrorMessage
          { sqlite_errorname := "SQLITE_ERROR"
            args := ["no such table: t"]
            sqlite_errorcode := 1 })) ∧
    (SqliteManager.fetch_row sqliteFailingDb
        (SqliteManager.init wholeTextSplit "SELECT 1").1).2.2
      = [Effect.executeSql "SELECT 1"] ∧
    Effect.rollback ∉ (SqliteManager.fetch_row sqliteFailingDb
        (SqliteManager.init wholeTextSplit "SELECT 1").1).2.2 :=
  claim_c3_amended.2.2.2.2.2.2.2.2.2.1 sqliteFailingDb
    (SqliteManager.init wholeTextSplit "SELECT 1").1 "SELECT 1"
    { sqlite_errorname := "SQLITE_ERROR"
      args := ["no such table: t"]
      sqlite_errorcode := 1 }
    rfl rfl rfl

/-! ## Lemmas about the record-set advancing loop (for C5) -/

/-- The head of a non-empty dropWhile result falsifies the predicate. -/
theorem dropWhile_head_false {α : Type} (p : α → Bool) :
    ∀ (l : List α) {x : α} {xs : List α}, l.dropWhile p = x :: xs → p x = false := by
  intro l
  induction l with
  | nil => intro x xs h; simp [List.dropWhile] at h
  | cons a as ih =>
    intro x xs h
    by_cases ha : p a
    · rw [List.dropWhile_cons_of_pos ha] at h
      exact ih h
    · rw [List.dropWhile_cons_of_neg ha] at h
      cases h
      exact Bool.eq_false_iff.mpr ha

/-- When every pending set reports no columns, the advancing loop of
MsSqlManager consumes them all and reports false with the columns
untouched. -/
theorem mssql_advance_from_all_skipped (pending : List NativeSet) :
    ∀ (cur0 : NativeSet) (cols : Option (List String)),
    pending.dropWhile (fun t => t.description.isNone) = [] →
    (MsSqlManager.advance_from cur0 pending cols).2.1 = [] ∧
    (MsSqlManager.advance_from cur0 pending cols).2.2.1 = cols ∧
    (MsSqlManager.advance_from cur0 pending cols).2.2.2 = false := by
  induction pending with
  | nil => intro cur0 cols h; simp [MsSqlManager.advance_from]
  | cons p ps ih =>
    intro cur0 cols h
    by_cases hp : p.description.isNone
    · simp only [List.dropWhile_cons, hp, if_true] at h
      have hnone : p.description = none := Option.isNone_iff_eq_none.mp hp
      simpa [MsSqlManager.advance_from, hnone] using ih p cols h
    · simp [List.dropWhile_cons, hp] at h

/-- When some pending set reports columns, the advancing loop of MsSqlManager
stops at the first such set, leaves the later sets pending, updates the
columns to its names, and reports true. -/
theorem mssql_advance_from_stops (pending : List NativeSet) :
    ∀ (cur0 : NativeSet) (cols : Option (List String)) (rs : NativeSet)
      (rest : List NativeSet),
    pending.dropWhile (fun t => t.description.isNone) = rs :: rest →
    MsSqlManager.advance_from cur0 pending cols
      = (rs, rest, some ((rs.description.getD []).map ColumnSpec.name), true) := by
  induction pending with
  | nil => intro cur0 cols rs rest h; simp [List.dropWhile] at h
  | cons p ps ih =>
    intro cur0 cols rs rest h
    by_cases hp : p.description.isNone
    · simp only [List.dropWhile_cons, hp, if_true] at h
      have hnone : p.description = none := Option.isNone_iff_eq_none.mp hp
      simpa [MsSqlManager.advance_from, hnone] using ih p cols rs rest h
    · simp [List.dropWhile_cons, hp] at h
      obtain ⟨h1, h2⟩ := h
      subst h1
      subst h2
      cases hdesc : p.description with
      | none => rw [hdesc] at hp; simp at hp
      | some desc => simp [MsSqlManager.advance_from, hdesc]

/-- The MySql version of mssql_advance_from_all_skipped. -/
theorem mysql_advance_from_all_skipped (pending : List NativeSet) :
    ∀ (cur0 : NativeSet) (cols : Option (List String)),
    pending.dropWhile (fun t => t.description.isNone) = [] →
    (MySqlManager.advance_from cur0 pending cols).2.1 = [] ∧
    (MySqlManager.advance_from cur0 pending cols).2.2.1 = cols ∧
    (MySqlManager.advance_from cur0 pending cols).2.2.2 = false := by
  induction pending with
  | nil => intro cur0 cols h; simp [MySqlManager.advance_from]
  | cons p ps ih =>
    intro cur0 cols h
    by_cases hp : p.description.isNone
    · simp only [List.dropWhile_cons, hp, if_true] at h
      have hnone : p.description = none := Option.isNone_iff_eq_none.mp hp
      simpa [MySqlManager.advance_from, hnone] using ih p cols h
    · simp [List.dropWhile_cons, hp] at h

/-- The MySql version of mssql_advance_from_stops. -/
theorem mysql_advance_from_stops (pending : List NativeSet) :
    ∀ (cur0 : NativeSet) (cols : Option (List String)) (rs : NativeSet)
      (rest : List NativeSet),
    pending.dropWhile (fun t => t.description.isNone) = rs :: rest →
    MySqlManager.advance_from cur0 pending cols
      = (rs, rest, some ((rs.description.getD []).map ColumnSpec.name), true) := by
  induction pending with
  | nil => intro cur0 cols rs rest h; simp [List.dropWhile] at h
  | cons p ps ih =>
    intro cur0 cols rs rest h
    by_cases hp : p.description.isNone
    · simp only [List.dropWhile_cons, hp, if_true] at h
      have hnone : p.description = none := Option.isNone_iff_eq_none.mp hp
      simpa [MySqlManager.advance_from, hnone] using ih p cols rs rest h
    · simp [List.dropWhile_cons, hp] at h
      obtain ⟨h1, h2⟩ := h
      subst h1
      subst h2
      cases hdesc : p.description with
      | none => rw [hdesc] at hp; simp at hp
      | some desc => simp [MySqlManager.advance_from, hdesc]

/-- C5 counterexample: an MsSqlManager whose single result set reports no
columns answers true on the first has_another_record_set call, although the
initial execution produced no set with columns; this refutes the only-if part
of the claim for the first call. -/
theorem claim_c5_counterexample :
    (MsSqlManager.has_another_record_set mssqlSingleEmptySetState).2 = true ∧
    (mssqlSingleEmptySetState.cursor.current ::
        mssqlSingleEmptySetState.cursor.pending).all
      (fun rs => rs.description.isNone) = true := by
  exact ⟨rfl, by decide⟩

/-- C5 amended: for a successfully constructed native multi-result-set
manager (MsSql, MySql; the error flag is false in every such manager) the
first has_another_record_set call returns true unconditionally and copies the
current description into columns; after rows have been fetched, a call scans
the pending sets, consuming every set without columns: it returns true
exactly when some pending set reports columns, in which case the cursor is
left on the first such set with the later sets still pending and columns
updated to its names, and it returns false with all pending sets consumed
otherwise. -/
theorem claim_c5_amended :
    (∀ s : MsSqlManagerState, s.rows_fetched = false → s.mssql_error = false →
        (MsSqlManager.has_another_record_set s).2 = true ∧
        (MsSqlManager.has_another_record_set s).1.columnsOpt
          = s.cursor.current.description.map (fun d => d.map ColumnSpec.name)) ∧
    (∀ s : MsSqlManagerState, s.rows_fetched = true → s.mssql_error = false →
        ((MsSqlManager.has_another_record_set s).2 = true ↔
          ∃ rs ∈ s.cursor.pending, rs.description.isSome = true)) ∧
    (∀ (s : MsSqlManagerState) (rs : NativeSet) (rest : List NativeSet),
        s.rows_fetched = true → s.mssql_error = false →
        s.cursor.pending.dropWhile (fun t => t.description.isNone)
          = rs :: rest →
        (MsSqlManager.has_another_record_set s).2 = true ∧
        (MsSqlManager.has_another_record_set s).1.cursor.current = rs ∧
        (MsSqlManager.has_another_record_set s).1.cursor.pending = rest ∧
        (MsSqlManager.has_another_record_set s).1.columnsOpt
          = some ((rs.description.getD []).map ColumnSpec.name)) ∧
    (∀ s : MsSqlManagerState, s.rows_fetched = true → s.mssql_error = false →
        s.cursor.pending.dropWhile (fun t => t.description.isNone) = [] →
        (MsSqlManager.has_another_record_set s).2 = false ∧
        (MsSqlManager.has_another_record_set s).1.cursor.pending = []) ∧
    (∀ s : MySqlManagerState, s.rows_fetched = false → s.mysql_error = false →
        (MySqlManager.has_another_record_set s).2 = true ∧
        (MySqlManager.has_another_record_set s).1.columnsOpt
          = s.cursor.current.description.map (fun d => d.map ColumnSpec.name)) ∧
    (∀ (s : MySqlManagerState) (rs : NativeSet) (rest : List NativeSet),
        s.rows_fetched = true → s.mysql_error = false →
        s.cursor.pending.dropWhile (fun t => t.description.isNone)
          = rs :: rest →
        (MySqlManager.has_another_record_set s).2 = true ∧
        (MySqlManager.has_another_record_set s).1.cursor.pending = rest ∧
        (MySqlManager.has_another_record_set s).1.columnsOpt
          = some ((rs.description.getD []).map ColumnSpec.name)) ∧
    (∀ s : MySqlManagerState, s.rows_fetched = true → s.mysql_error = false →
        s.cursor.pending.dropWhile (fun t => t.description.isNone) = [] →
        (MySqlManager.has_another_record_set s).2 = false) := by
  have hmsTrue : ∀ (s : MsSqlManagerState) (rs : NativeSet)
      (rest : List NativeSet), s.rows_fetched = true → s.mssql_error = false →
      s.cursor.pending.dropWhile (fun t => t.description.isNone) = rs :: rest →
      (MsSqlManager.has_another_record_set s).2 = true ∧
      (MsSqlManager.has_another_record_set s).1.cursor.current = rs ∧
      (MsSqlManager.has_another_record_set s).1.cursor.pending = rest ∧
      (MsSqlManager.has_another_record_set s).1.columnsOpt
        = some ((rs.description.getD []).map ColumnSpec.name) := by
    intro s rs rest hrf herr hdrop
    have hpend : s.cursor.pending ≠ [] := by
      intro hnil
      rw [hnil] at hdrop
      simp [List.dropWhile] at hdrop
    have hadv := mssql_advance_from_stops s.cursor.pending
      { s.cursor with messages := [] }.current s.columnsOpt rs rest hdrop
    cases hp : s.cursor.pending with
    | nil => exact absurd hp hpend
    | cons q qs =>
      rw [hp] at hadv
      simp [MsSqlManager.has_another_record_set, hrf, herr, hp, hadv]
  have hmsFalse : ∀ s : MsSqlManagerState, s.rows_fetched = true →
      s.mssql_error = false →
      s.cursor.pending.dropWhile (fun t => t.description.isNone) = [] →
      (MsSqlManager.has_another_record_set s).2 = false ∧
      (MsSqlManager.has_another_record_set s).1.cursor.pending = [] := by
    intro s hrf herr hdrop
    cases hp : s.cursor.pending with
    | nil => simp [MsSqlManager.has_another_record_set, hrf, herr, hp]
    | cons q qs =>
      have hadv := mssql_advance_from_all_skipped s.cursor.pending
        { s.cursor with messages := [] }.current s.columnsOpt hdrop
      rw [hp] at hadv
      rcases hA : MsSqlManager.advance_from
          { s.cursor with messages := [] }.current (q :: qs) s.columnsOpt
        with ⟨cur, pend, colsUpd, b⟩
      rw [hA] at hadv
      simp only [MsSqlManager.has_another_record_set, hrf, herr, hp, hA]
      simp at hadv ⊢
      exact ⟨hadv.2.2, hadv.1⟩
  refine ⟨?_, ?_, hmsTrue, hmsFalse, ?_, ?_, ?_⟩
  · intro s hrf herr
    cases hd : s.cursor.current.description with
    | none =>
        simp [MsSqlManager.has_another_record_set, hrf, herr,
              MsSqlManager.try_populate_columns, hd]
    | some desc =>
        simp [MsSqlManager.has_another_record_set, hrf, herr,
              MsSqlManager.try_populate_columns, hd]
  · intro s hrf herr
    constructor
    · intro htrue
      by_contra hno
      push_neg at hno
      have hall : s.cursor.pending.dropWhile
          (fun t => t.description.isNone) = [] := by
        rw [List.dropWhile_eq_nil_iff]
        intro x hx
        have := hno x hx
        simp [Option.isNone_iff_eq_none]
        cases hcd : x.description with
        | none => rfl
        | some d => rw [hcd] at this; simp at this
      have := (hmsFalse s hrf herr hall).1
      rw [this] at htrue
      cases htrue
    · intro ⟨rs, hrsmem, hrssome⟩
      cases hdrop : s.cursor.pending.dropWhile
          (fun t => t.description.isNone) with
      | nil =>
        rw [List.dropWhile_eq_nil_iff] at hdrop
        have := hdrop rs hrsmem
        simp [Option.isNone_iff_eq_none] at this
        rw [this] at hrssome
        simp at hrssome
      | cons q qs =>
        exact (hmsTrue s q qs hrf herr hdrop).1
  · intro s hrf herr
    cases hd : s.cursor.current.description with
    | none =>
        simp [MySqlManager.has_another_record_set, hrf, herr,
              MySqlManager.try_populate_columns, hd]
    | some desc =>
        simp [MySqlManager.has_another_record_set, hrf, herr,
              MySqlManager.try_populate_columns, hd]
  · intro s rs rest hrf herr hdrop
    have hpend : s.cursor.pending ≠ [] := by
      intro hnil
      rw [hnil] at hdrop
      simp [List.dropWhile] at hdrop
    have hadv := mysql_advance_from_stops s.cursor.pending
      s.cursor.current s.columnsOpt rs rest hdrop
    cases hp : s.cursor.pending with
    | nil => exact absurd hp hpend
    | cons q qs =>
      rw [hp] at hadv
      simp [MySqlManager.has_another_record_set, hrf, herr, hp, hadv]
  · intro s hrf herr hdrop
    cases hp : s.cursor.pending with
    | nil => simp [MySqlManager.has_another_record_set, hrf, herr, hp]
    | cons q qs =>
      have hadv := mysql_advance_from_all_skipped s.cursor.pending
        s.cursor.current s.columnsOpt hdrop
      rw [hp] at hadv
      rcases hA : MySqlManager.advance_from
          s.cursor.current (q :: qs) s.columnsOpt
        with ⟨cur, pend, colsUpd, b⟩
      rw [hA] at hadv
      simp only [MySqlManager.has_another_record_set, hrf, herr, hp, hA]
      simp at hadv ⊢
      exact hadv.2.2

/-- C5 witness: the amended theorem applied at a manager positioned after
fetching, with one columnless pending set followed by one set with a column
named x. -/
theorem claim_c5_witness :
    (MsSqlManager.has_another_record_set
      { cursor := { current := { description := some [{ name := "a" }]
                                 rows := [] }
                    pending := [{ description := none, rows := [] },
                                { description := some [{ name := "x" }]
                                  rows := [["1"]] }]
                    pos := 0
                    messages := [] }
        columnsOpt := some ["a"]
        rows_fetched := true
        mssql_error := false }).2 = true :=
  (claim_c5_amended.2.2.1
    { cursor := { current := { description := some [{ name := "a" }]
                               rows := [] }
                  pending := [{ description := none, rows := [] },
                              { description := some [{ name := "x" }]
                                rows := [["1"]] }]
                  pos := 0
                  messages := [] }
      columnsOpt := some ["a"]
      rows_fetched := true
      mssql_error := false }
    { description := some [{ name := "x" }], rows := [["1"]] }
    [] rfl rfl (by decide)).1

/-! ## C1: the spooling loop -/

/-- A sqlite driver behavior for SELECT 1: every statement yields one column
named 1 and one row. -/
def sqliteSelect1Db : SqliteDb := fun _ =>
  .ok { description := some [{ name := "1" }], rows := [["1"]] }

/-- The SqliteManager state right after constructing a manager for
SELECT 1. -/
def sqliteSelect1State : SqliteManagerState :=
  (SqliteManager.init wholeTextSplit "SELECT 1").1

/-- A table-rendering collaborator that always succeeds. -/
def constTableRenderer : RecordSet → Except PyExc String := fun _ => .ok "table"

/-- C1: the claim says the spooling loop invokes the table renderer once per
result set with a non-empty column list.  Evaluated on a SELECT 1 query under
the SqliteManager (one result set, one column, one row): the manager reports
a record set, but the loop constructs the spool monitor with only two of its
three required arguments, so the first iteration raises TypeError and the
table renderer is never invoked (no displayTable event occurs). -/
theorem claim_c1_spool_monitor_typeerror :
    SqliteManager.has_another_record_set sqliteSelect1State = true ∧
    (spool_results (sqliteModel sqliteSelect1Db) constTableRenderer
        4 4 sqliteSelect1State).result
      = .error (.typeError
          "SaSpoolMonitor.__init__ missing 1 required positional argument: display_progress") ∧
    ((spool_results (sqliteModel sqliteSelect1Db) constTableRenderer
        4 4 sqliteSelect1State).events.countP
      (fun ev => match ev with
                 | SpoolEvent.displayTable _ => true
                 | _ => false)) = 0 := by
  refine ⟨rfl, rfl, rfl⟩

/-! ## C9 and C10: connect failure and the inspecting property -/

/-- C9: a connect call that fails with InvalidUrlException,
MissingModuleException or ConnectionFailedException leaves the backend
disconnected: connected is false and the connection and engine fields are
None.  The hypotheses describe a backend with no live engine or connection,
which is the only state in which connect proceeds past the
already-connected check. -/
theorem claim_c9_failed_connect_disconnected (w : SaBackend.ConnectWorld)
    (s : SaBackendState) (e : PyExc)
    (hengine : s.engine = none) (hconn : s.active_connection = none)
    (hres : (SaBackend.connect_with_string w s).2.1 = .error e)
    (hkind : (∃ m, e = PyExc.invalidUrlException m) ∨
             (∃ m, e = PyExc.missingModuleException m) ∨
             (∃ m, e = PyExc.connectionFailedException m)) :
    SaBackend.connected (SaBackend.connect_with_string w s).1 = false ∧
    (SaBackend.connect_with_string w s).1.active_connection = none ∧
    (SaBackend.connect_with_string w s).1.engine = none := by
  clear hkind
  cases hmu : w.make_url with
  | error msg =>
      simp [SaBackend.connect_with_string, SaBackend.connected,
            hengine, hconn, hmu]
  | ok url =>
    cases hce : w.create_engine with
    | error msg =>
        simp [SaBackend.connect_with_string, SaBackend.connected,
              hengine, hconn, hmu, hce]
    | ok engineHandle =>
      cases hcc : w.connect with
      | error args =>
          simp [SaBackend.connect_with_string, SaBackend.connected,
                SaBackend.disconnect, hengine, hconn, hmu, hce, hcc]
      | ok connHandle =>
          simp [SaBackend.connect_with_string, hengine, hmu, hce, hcc] at hres

/-- A connect environment whose connection string does not parse as an
SQLAlchemy URL. -/
def invalidUrlWorld : SaBackend.ConnectWorld :=
  { make_url := .error "ArgumentError: Could not parse SQLAlchemy URL"
    create_engine := .ok 1
    connect := .ok 2
    inspector_handle := 3 }

/-- C9 witness: the theorem applied to a fresh backend and a connect call
that fails with InvalidUrlException. -/
theorem claim_c9_witness :
    SaBackend.connected
      (SaBackend.connect_with_string invalidUrlWorld SaBackend.initState).1
        = false ∧
    (SaBackend.connect_with_string invalidUrlWorld
        SaBackend.initState).1.active_connection = none ∧
    (SaBackend.connect_with_string invalidUrlWorld
        SaBackend.initState).1.engine = none :=
  claim_c9_failed_connect_disconnected invalidUrlWorld SaBackend.initState
    (PyExc.invalidUrlException "ArgumentError: Could not parse SQLAlchemy URL")
    rfl rfl rfl (Or.inl ⟨_, rfl⟩)

/-- C10: on a backend where connect never succeeded and
invalidate_completions never installed an inspector, the inspector field is
still None and reading the inspecting property raises AttributeError instead
of returning a boolean.  The conjuncts: a fresh backend has no inspector;
inspecting on an inspector-free backend never yields a boolean and raises;
every connect call that fails leaves the inspector field unchanged; and
invalidate_completions without an engine is a no-op. -/
theorem claim_c10_inspecting_raises :
    SaBackend.initState.inspector = none ∧
    (∀ (isAlive : Nat → Bool) (s : SaBackendState), s.inspector = none →
        SaBackend.inspecting isAlive s
          = .error (.attributeError
              "NoneType object has no attribute is_alive") ∧
        ∀ b, SaBackend.inspecting isAlive s ≠ .ok b) ∧
    (∀ (w : SaBackend.ConnectWorld) (s : SaBackendState) (e : PyExc),
        (SaBackend.connect_with_string w s).2.1 = .error e →
        (SaBackend.connect_with_string w s).1.inspector = s.inspector) ∧
    (∀ (handle : Nat) (s : SaBackendState), s.engine = none →
        (SaBackend.invalidate_completions handle s).1 = s) := by
  refine ⟨rfl, ?_, ?_, ?_⟩
  · intro isAlive s h
    constructor
    · simp [SaBackend.inspecting, h]
    · intro b hb
      simp [SaBackend.inspecting, h] at hb
  · intro w s e hres
    cases hE : s.engine with
    | some n => simp [SaBackend.connect_with_string, hE]
    | none =>
      cases hmu : w.make_url with
      | error msg => simp [SaBackend.connect_with_string, hE, hmu]
      | ok url =>
        cases hce : w.create_engine with
        | error msg => simp [SaBackend.connect_with_string, hE, hmu, hce]
        | ok engineHandle =>
          cases hcc : w.connect with
          | error args =>
              simp [SaBackend.connect_with_string, SaBackend.disconnect,
                    hE, hmu, hce, hcc]
          | ok connHandle =>
              simp [SaBackend.connect_with_string, hE, hmu, hce, hcc] at hres
  · intro handle s h
    simp [SaBackend.invalidate_completions, h]

/-- C10 witness: the theorem applied at a fresh backend. -/
theorem claim_c10_witness :
    SaBackend.inspecting (fun _ => false) SaBackend.initState
      = .error (.attributeError
          "NoneType object has no attribute is_alive") :=
  (claim_c10_inspecting_raises.2.1 (fun _ => false) SaBackend.initState rfl).1

/-! ## C8: monitor ordering on the exceptional path -/

/-- Every element of the second component of an interleaving occurs in the
result. -/
theorem mix_mem_right {α : Type} {xs ys zs : List α} (h : Mix xs ys zs) :
    ∀ y ∈ ys, y ∈ zs := by
  induction h with
  | nil => intro y hy; cases hy
  | left _ ih =>
      intro y hy
      exact List.mem_cons_of_mem _ (ih y hy)
  | right _ ih =>
      intro y hy
      rcases List.mem_cons.mp hy with h1 | h2
      · exact h1 ▸ List.mem_cons_self _ _
      · exact List.mem_cons_of_mem _ (ih y h2)

/-- A list splits at a distinguished element not occurring earlier in a
unique way. -/
theorem split_at_unique {α : Type} {x : α} :
    ∀ {a c b d : List α}, a ++ x :: b = c ++ x :: d → x ∉ a → x ∉ c →
      a = c ∧ b = d := by
  intro a
  induction a with
  | nil =>
    intro c b d h hxa hxc
    cases c with
    | nil => simp at h; exact ⟨rfl, h⟩
    | cons y ys =>
      simp at h
      exact absurd (h.1 ▸ List.mem_cons_self y ys) hxc
  | cons y ys ih =>
    intro c b d h hxa hxc
    cases c with
    | nil =>
      simp at h
      exact absurd (h.1 ▸ List.mem_cons_self y ys) hxa
    | cons z zs =>
      simp only [List.cons_append, List.cons.injEq] at h
      obtain ⟨hyz, hrest⟩ := h
      have hxys : x ∉ ys := fun hm => hxa (List.mem_cons_of_mem _ hm)
      have hxzs : x ∉ zs := fun hm => hxc (List.mem_cons_of_mem _ hm)
      obtain ⟨h1, h2⟩ := ih hrest hxys hxzs
      exact ⟨by rw [hyz, h1], h2⟩

/-- Every event recorded by the fetch loop is a rowFetched event. -/
theorem fetch_loop_events_rowFetched {σ : Type} (M : ManagerModel σ) :
    ∀ (fuel : Nat) (s : σ) (spool : List Row) (ev : SpoolEvent),
      ev ∈ (fetch_loop M fuel s spool).2.2.2 →
      ∃ r, ev = SpoolEvent.rowFetched r := by
  intro fuel
  induction fuel with
  | zero =>
    intro s spool ev h
    simp [fetch_loop] at h
  | succ n ih =>
    intro s spool ev h
    rw [fetch_loop] at h
    rcases hM : M.fetch_row s with ⟨s1, r⟩
    rw [hM] at h
    cases r with
    | error e => simp at h
    | ok row =>
      by_cases hrow : row = []
      · simp [hrow] at h
      · simp only [hrow, if_neg, ite_false] at h
        rcases hFL : fetch_loop M n s1 (spool ++ [row]) with ⟨s2, sp2, exc2, evs2⟩
        rw [hFL] at h
        simp only [] at h
        rcases List.mem_cons.mp h with h1 | h2
        · exact ⟨row, h1⟩
        · have := ih s1 (spool ++ [row]) ev
          rw [hFL] at this
          exact this h2

/-- The tail of the loop body propagates an exception only with a trace that
ends in monitorStop, monitorJoin, raised. -/
theorem spool_iteration_tail_exc_shape {σ : Type}
    (ct : RecordSet → Except PyExc String) (M : ManagerModel σ)
    (s1 : σ) (spool : List Row) (evs0 : List SpoolEvent)
    (hjoin : SpoolEvent.monitorJoin ∉ evs0) (e : PyExc)
    (hexc : (spool_iteration_tail ct M s1 spool evs0).excOpt = some e) :
    ∃ pre, (spool_iteration_tail ct M s1 spool evs0).events
        = pre ++ [SpoolEvent.monitorStop, SpoolEvent.monitorJoin,
                  SpoolEvent.raised e] ∧
      SpoolEvent.monitorJoin ∉ pre := by
  by_cases hc : (M.columns s1).length ≠ 0
  · rcases hct : ct { columns := M.columns s1, records := spool } with e2 | table
    · have he2 : e2 = e := by
        simp [spool_iteration_tail, hc, hct] at hexc
        exact hexc
      subst he2
      refine ⟨evs0 ++ [SpoolEvent.monitorDone], ?_, ?_⟩
      · simp [spool_iteration_tail, hc, hct]
      · intro hm
        rcases List.mem_append.mp hm with h1 | h2
        · exact hjoin h1
        · simp at h2
    · simp [spool_iteration_tail, hc, hct] at hexc
  · simp [spool_iteration_tail, hc] at hexc

/-- Whenever one iteration of the spooling loop ends with an escaping
exception, its main-thread trace ends in monitorStop, monitorJoin, raised,
and no earlier join event occurs. -/
theorem spool_iteration_exc_shape {σ : Type} (M : ManagerModel σ)
    (ct : RecordSet → Except PyExc String) (fuel : Nat) (s : σ) (e : PyExc)
    (hexc : (spool_iteration M ct fuel s).excOpt = some e) :
    ∃ pre, (spool_iteration M ct fuel s).events
        = pre ++ [SpoolEvent.monitorStop, SpoolEvent.monitorJoin,
                  SpoolEvent.raised e] ∧
      SpoolEvent.monitorJoin ∉ pre := by
  rcases hFL : fetch_loop M fuel s [] with ⟨s1, spool, fexc, fevs⟩
  have hrows : ∀ ev ∈ fevs, ∃ r, ev = SpoolEvent.rowFetched r := by
    intro ev h
    have := fetch_loop_events_rowFetched M fuel s [] ev
    rw [hFL] at this
    exact this h
  have hjoin0 : SpoolEvent.monitorJoin ∉ (SpoolEvent.monitorStart :: fevs) := by
    intro hm
    rcases List.mem_cons.mp hm with h1 | h2
    · cases h1
    · obtain ⟨r, hr⟩ := hrows _ h2
      cases hr
  cases fexc with
  | none =>
    have hred : spool_iteration M ct fuel s
        = spool_iteration_tail ct M s1 spool (SpoolEvent.monitorStart :: fevs) := by
      rw [spool_iteration, hFL]
    rw [hred] at hexc ⊢
    exact spool_iteration_tail_exc_shape ct M s1 spool _ hjoin0 e hexc
  | some e0 =>
    by_cases hcf : e0.isResultControlFlow
    · have hred : spool_iteration M ct fuel s
          = spool_iteration_tail ct M s1 spool
              (SpoolEvent.monitorStart :: fevs) := by
        rw [spool_iteration, hFL]
        simp [hcf]
      rw [hred] at hexc ⊢
      exact spool_iteration_tail_exc_shape ct M s1 spool _ hjoin0 e hexc
    · have hred : spool_iteration M ct fuel s
          = { state := s1, recordSetOpt := none, excOpt := some e0,
              events := (SpoolEvent.monitorStart :: fevs)
                ++ [SpoolEvent.monitorStop, SpoolEvent.monitorJoin,
                    SpoolEvent.raised e0] } := by
        rw [spool_iteration, hFL]
        simp [hcf]
      rw [hred] at hexc ⊢
      have he : e0 = e := by
        simpa using hexc
      subst he
      exact ⟨SpoolEvent.monitorStart :: fevs, rfl, hjoin0⟩

/-- C8: whenever an exception other than the two control-flow signals escapes
an iteration of the spooling loop (raised while fetching rows or while
constructing the table), the main-thread trace stops and joins the monitor
immediately before the exception propagates, with no earlier join; and in
every valid schedule (the interleavings permitted by thread-join semantics)
the full observable trace places every monitor write strictly before the
join, hence before the exception reaches the caller and before any
subsequent caller output. -/
theorem claim_c8_monitor_join_ordering {σ : Type} (M : ManagerModel σ)
    (ct : RecordSet → Except PyExc String) (fuel : Nat) (s : σ) (e : PyExc)
    (hexc : (spool_iteration M ct fuel s).excOpt = some e) :
    (∃ pre, (spool_iteration M ct fuel s).events
        = pre ++ [SpoolEvent.monitorStop, SpoolEvent.monitorJoin,
                  SpoolEvent.raised e] ∧
        SpoolEvent.monitorJoin ∉ pre) ∧
    (∀ monitorEvents full,
        ValidSchedule (spool_iteration M ct fuel s).events monitorEvents full →
        ∃ mixed, full = mixed ++ [SpoolEvent.monitorJoin, SpoolEvent.raised e] ∧
          ∀ ev ∈ monitorEvents, ev ∈ mixed) := by
  obtain ⟨pre, hpre, hnj⟩ := spool_iteration_exc_shape M ct fuel s e hexc
  refine ⟨⟨pre, hpre, hnj⟩, ?_⟩
  intro mon full hvs
  obtain ⟨p2, post2, mixed, hmain, hnj2, hmix, hfull⟩ := hvs
  have hmain2 : (pre ++ [SpoolEvent.monitorStop])
      ++ SpoolEvent.monitorJoin :: [SpoolEvent.raised e]
      = p2 ++ SpoolEvent.monitorJoin :: post2 := by
    rw [← hmain, hpre]
    simp
  have hnj3 : SpoolEvent.monitorJoin ∉ pre ++ [SpoolEvent.monitorStop] := by
    intro hm
    rcases List.mem_append.mp hm with h1 | h2
    · exact hnj h1
    · simp at h2
  obtain ⟨hpe, hpo⟩ := split_at_unique hmain2 hnj3 hnj2
  refine ⟨mixed, ?_, mix_mem_right hmix⟩
  rw [hfull, ← hpo]

/-- A manager on which every fetch raises a keyboard interrupt. -/
def interruptModel : ManagerModel Unit :=
  { has_another_record_set := fun s => (s, true)
    fetch_row := fun s => (s, .error .keyboardInterrupt)
    columns := fun _ => [] }

/-- C8 witness: the theorem applied at an iteration interrupted by the
keyboard during the first fetch. -/
theorem claim_c8_witness :
    ∃ pre, (spool_iteration interruptModel constTableRenderer 1 ()).events
        = pre ++ [SpoolEvent.monitorStop, SpoolEvent.monitorJoin,
                  SpoolEvent.raised PyExc.keyboardInterrupt] ∧
      SpoolEvent.monitorJoin ∉ pre :=
  (claim_c8_monitor_join_ordering interruptModel constTableRenderer 1 ()
    PyExc.keyboardInterrupt rfl).1

end Sqlterm
